import Mathlib

/-!
Shallow embedding of the mass-balance calculation pipeline
(`preprocessing.py`, `calculation_functions.py`, `recommendation_logic.py`).

Modelling conventions:
* Python floats are modelled as exact rationals (`ℚ`).
* A pandas cell is a `Cell`: a numeric value, a non-numeric text, or an
  empty/NaN cell.  `pd.to_numeric(..., errors="coerce")` becomes
  `toNumeric`, which maps non-numeric cells to `none` (missing/NaN).
* A possibly-missing float (NaN after coercion, or the `None` produced by
  the RMB lambda, which pandas stores as NaN in a float column) is an
  `Option ℚ`.  Every comparison against a missing value is false, exactly
  as NaN comparisons are false in Python; the `oLt`/`oLe`/`oGe`/`oGt`
  helpers encode this.
* Column names are `String`s; `str.strip().lower()` is `cleanName` and
  `str.replace(" ", "_")` is `spaceToUnderscore` (the pattern is the
  single space character, so it is a character map).
-/

/-- ASCII whitespace stripped by Python's `str.strip()`. -/
def isPySpace (c : Char) : Bool :=
  c = ' ' || c = '\t' || c = '\n' || c = '\r' || c = '\x0b' || c = '\x0c'

/-- ASCII lowercasing of one character, as `str.lower()` does on the
ASCII column names used here. -/
def lowerChar (c : Char) : Char :=
  if 'A' ≤ c ∧ c ≤ 'Z' then Char.ofNat (c.toNat + 32) else c

/-- `col.strip().lower()` from `normalize_columns`. -/
def cleanName (s : String) : String :=
  String.mk ((((s.data.dropWhile isPySpace).reverse.dropWhile isPySpace).reverse).map lowerChar)

/-- `clean.replace(" ", "_")`: the pattern is one space character, so the
replacement is a character-wise map. -/
def spaceToUnderscore (s : String) : String :=
  String.mk (s.data.map (fun c => if c = ' ' then '_' else c))

/-- Does `pat` occur at the head of `l`?  (Char-list core of
`str.startswith`.) -/
def startsWithChars : List Char → List Char → Bool
  | [], _ => true
  | _ :: _, [] => false
  | a :: as, b :: bs => a == b && startsWithChars as bs

/-- Does `pat` occur somewhere inside `l`?  (Char-list core of Python's
`in` on strings.) -/
def containsChars (pat : List Char) : List Char → Bool
  | [] => pat.isEmpty
  | b :: bs => startsWithChars pat (b :: bs) || containsChars pat bs

/-- `s.startswith(pat)`. -/
def strStartsWith (s pat : String) : Bool := startsWithChars pat.data s.data

/-- `pat in s` on Python strings. -/
def strContains (s pat : String) : Bool := containsChars pat.data s.data

/-- `COLUMN_ALIASES` from `preprocessing.py`, in the source's (insertion)
order, which is the iteration order of the Python dict. -/
def COLUMN_ALIASES : List (String × List String) :=
  [ ("api_name", ["api name", "api_name", "api"]),
    ("api_code", ["api code", "api_code"]),
    ("stress_type", ["stress type", "stress_typ", "stress_type", "stress"]),
    ("time_months", ["time", "time_mon", "time_months", "months", "time_month"]),
    ("api_assay",
      ["api assay", "api_assay", "api_assay_percent", "api assay percent",
       "assay", "assay_percent"]) ]

/-- The first standard name whose alias list contains `clean`
(the `for std, aliases ... if clean in aliases: ... break` loop). -/
def aliasLookup (clean : String) : Option String :=
  (COLUMN_ALIASES.find? (fun p => p.2.contains clean)).map (fun p => p.1)

/-- The name one column ends up with after `normalize_columns`: the alias
match is recorded first, then the degradant auto-detection overwrites the
map entry whenever `"degradant" in clean`; a column matching neither is
left unchanged by `df.rename`. -/
def normalizeColumn (col : String) : String :=
  let clean := cleanName col
  let aliased :=
    match aliasLookup clean with
    | some std => std
    | none => col
  if strContains clean "degradant" then spaceToUnderscore clean else aliased

/-- `normalize_columns` on the list of column names. -/
def normalize_columns (cols : List String) : List String :=
  cols.map normalizeColumn

/-- `detect_degradant_columns`: the columns whose name starts with
`"degradant_"`. -/
def detect_degradant_columns (cols : List String) : List String :=
  cols.filter (fun c => strStartsWith c "degradant_")

/-- One pandas cell: a parsed numeric value, non-numeric text, or an
empty/NaN cell. -/
inductive Cell where
  | num (q : ℚ)
  | text (s : String)
  | empty
deriving DecidableEq

/-- `pd.to_numeric(..., errors="coerce")` on one cell: numeric cells keep
their value, text and empty cells become missing (NaN). -/
def toNumeric : Cell → Option ℚ
  | .num q => some q
  | .text _ => none
  | .empty => none

example : normalize_columns ["API Assay", " stress type ", "Time", "Degradant A"] =
    ["api_assay", "stress_type", "time_months", "degradant_a"] := by decide

example : normalize_columns ["Total Degradants"] = ["total_degradants"] := by decide

example : detect_degradant_columns ["total_degradants", "degradant_a"] = ["degradant_a"] := by
  decide

/-! ## recommendation_logic.py -/

/-- `x < q`, false when `x` is missing (NaN comparisons are false). -/
def oLt (x : Option ℚ) (q : ℚ) : Bool :=
  match x with
  | none => false
  | some v => decide (v < q)

/-- `x ≤ q`, false when `x` is missing. -/
def oLe (x : Option ℚ) (q : ℚ) : Bool :=
  match x with
  | none => false
  | some v => decide (v ≤ q)

/-- `q ≤ x`, false when `x` is missing. -/
def oGe (x : Option ℚ) (q : ℚ) : Bool :=
  match x with
  | none => false
  | some v => decide (q ≤ v)

/-- `q < x`, false when `x` is missing. -/
def oGt (x : Option ℚ) (q : ℚ) : Bool :=
  match x with
  | none => false
  | some v => decide (q < v)

/-- `abs x ≤ q`, false when `x` is missing (`abs(nan)` is NaN). -/
def oAbsLe (x : Option ℚ) (q : ℚ) : Bool :=
  match x with
  | none => false
  | some v => decide (|v| ≤ q)

/-- `interpret_z_mb`.  The result is the pair (interpretation, note).
Here `none` models a literal Python `None` argument (the source's
`z_mb is None` test); a NaN z-score coming out of the dataframe is NOT
`None` in Python and would fall through to the final else branch instead,
which this embedding does not model — the theorems below use this
function on defined z only. -/
def interpret_z_mb (z_mb : Option ℚ) : String × String :=
  match z_mb with
  | none => ("Invalid Z_MB", "Check uncertainty inputs")
  | some z =>
    if |z| ≤ 2 then ("Within analytical variability", "Acceptable")
    else if z < -2 then ("Statistically significant mass loss", "Investigate imbalance")
    else ("Statistically significant over-recovery", "Check response factors")

/-- `diagnostic_zone`.  Arguments are possibly-missing floats (NaN in the
dataframe when a prerequisite was undefined); each comparison fails on a
missing value, which is NaN-comparison semantics. -/
def diagnostic_zone (amb rmb z_mb : Option ℚ) : String :=
  if oAbsLe z_mb 2 then "Zone 1 – Analytical variability"
  else if oLt amb 98 && oLt rmb (0.8 : ℚ) then "Zone 2 – Missing or undetected degradants"
  else if oLt amb 98 && oGe rmb (0.8 : ℚ) && oLe rmb (1.2 : ℚ) then
    "Zone 3 – Physical loss mechanisms"
  else if oGt amb 102 && oGt rmb (1.2 : ℚ) then "Zone 4 – Overestimation / RF mismatch"
  else "Zone 3 – Method or degradation pathway issue"

/-- `recommended_action`: substring tests against the zone label, in
source order. -/
def recommended_action (zone : String) : String :=
  if strContains zone "Zone 1" then "No investigation required"
  else if strContains zone "Zone 2" then "Search for additional degradants / volatility studies"
  else if strContains zone "Zone 3" then "Investigate physical loss or degradation pathways"
  else if strContains zone "Zone 4" then "Review response factors and integration parameters"
  else "Expert review required"

/-- The zone number of the rule that fires in `diagnostic_zone`, with the
same guards in the same order (spec-side companion used to state that the
recommended action depends only on this number). -/
def zoneNumber (amb rmb z_mb : Option ℚ) : Nat :=
  if oAbsLe z_mb 2 then 1
  else if oLt amb 98 && oLt rmb (0.8 : ℚ) then 2
  else if oLt amb 98 && oGe rmb (0.8 : ℚ) && oLe rmb (1.2 : ℚ) then 3
  else if oGt amb 102 && oGt rmb (1.2 : ℚ) then 4
  else 3

/-- The fixed action string for each zone number (spec-side companion:
one string per zone number, default for unrecognized labels). -/
def actionForZone : Nat → String
  | 1 => "No investigation required"
  | 2 => "Search for additional degradants / volatility studies"
  | 3 => "Investigate physical loss or degradation pathways"
  | 4 => "Review response factors and integration parameters"
  | _ => "Expert review required"

/-! ## calculation_functions.py (standalone metric functions) -/

/-- `calculate_amb`. -/
def calculate_amb (api_assay total_degradants : ℚ) : ℚ :=
  api_assay + total_degradants

/-- `calculate_ambd`: note the absolute value in the standalone module. -/
def calculate_ambd (amb : ℚ) : ℚ := |amb - 100|

/-- `calculate_rmb`: `float("nan")` (missing) when `100 - api_assay ≤ 0`. -/
def calculate_rmb (api_assay total_degradants : ℚ) : Option ℚ :=
  let api_loss := 100 - api_assay
  if api_loss ≤ 0 then none else some (total_degradants / api_loss)

/-- `calculate_rmbd`: NaN propagates, otherwise `abs(rmb - 1)`. -/
def calculate_rmbd : Option ℚ → Option ℚ
  | none => none
  | some rmb => some |rmb - 1|

example : diagnostic_zone (some 100) (some 1) (some 0) = "Zone 1 – Analytical variability" := by
  norm_num [diagnostic_zone, oAbsLe, oLt, oGe, oLe, oGt, abs_le]
example : diagnostic_zone (some 92) (some (0.2 : ℚ)) (some (-(3.2 : ℚ))) =
    "Zone 2 – Missing or undetected degradants" := by
  norm_num [diagnostic_zone, oAbsLe, oLt, oGe, oLe, oGt, abs_le]
example : diagnostic_zone (some 108) none (some (3.2 : ℚ)) =
    "Zone 3 – Method or degradation pathway issue" := by
  norm_num [diagnostic_zone, oAbsLe, oLt, oGe, oLe, oGt, abs_le]
example : recommended_action "Zone 2 – Missing or undetected degradants" =
    "Search for additional degradants / volatility studies" := by decide
example : calculate_rmbd (some (0.5 : ℚ)) = some (0.5 : ℚ) := by
  rw [calculate_rmbd, abs_of_nonpos (by norm_num)]
  norm_num

/-! ## preprocessing.py: per-row metrics and the pipeline -/

/-- One row of the processed dataframe: the row's (post-coercion source)
cells plus the derived metric columns added by `preprocess_input`.
`total_degradants` is always defined (pandas `sum` skips NaN); the other
derived columns are missing whenever a prerequisite is missing. -/
structure ProcessedRow where
  cells : List Cell
  api_assay : Option ℚ
  total_degradants : ℚ
  AMB : Option ℚ
  AMBD : Option ℚ
  RMB : Option ℚ
  RMBD : Option ℚ
  Z_MB : Option ℚ
deriving DecidableEq

/-- `row[name]`: the cell of the (first) column called `name`. -/
def colVal (cols : List String) (row : List Cell) (name : String) : Option Cell :=
  ((cols.zip row).find? (fun p => p.1 == name)).map (fun p => p.2)

/-- The numeric value of column `name` in this row after
`pd.to_numeric(..., errors="coerce")`. -/
def numValue (cols : List String) (row : List Cell) (name : String) : Option ℚ :=
  match colVal cols row name with
  | some c => toNumeric c
  | none => none

/-- `df[degradant_cols].sum(axis=1)` for one row: pandas sums with
`skipna=True`, so a missing cell contributes 0 and an all-missing row sums
to a defined 0. -/
def sumDegradants (cols dcols : List String) (row : List Cell) : ℚ :=
  (dcols.map (fun c => (numValue cols row c).getD 0)).sum

/-- The core per-row calculation block of `preprocess_input`
(total_degradants, AMB, AMBD, RMB, RMBD, Z_MB), with
`COMBINED_UNCERTAINTY = 2.5`. -/
def computeRow (cols dcols : List String) (row : List Cell) : ProcessedRow :=
  let api := numValue cols row "api_assay"
  let total := sumDegradants cols dcols row
  let amb := api.map (fun a => a + total)
  let rmb :=
    match api with
    | some a => if 100 - a > 0 then some (total / (100 - a)) else none
    | none => none
  { cells := row
    api_assay := api
    total_degradants := total
    AMB := amb
    AMBD := amb.map (fun x => x - 100)
    RMB := rmb
    RMBD := rmb.map (fun x => x - 1)
    Z_MB := amb.map (fun x => (x - 100) / (2.5 : ℚ)) }

/-- Is this cell NA for `dropna`?  Empty cells are NA everywhere; text
cells are NA exactly in the columns that were numerically coerced. -/
def cellIsNA (coerced : Bool) : Cell → Bool
  | .empty => true
  | .text _ => coerced
  | .num _ => false

/-- `df.dropna(how="all")` drops a row exactly when every cell is NA. -/
def rowAllNA (cols numericCols : List String) (row : List Cell) : Bool :=
  (cols.zip row).all (fun p => cellIsNA (numericCols.contains p.1) p.2)

/-- `0 <= row["api_assay"] <= 100`; false when the assay is missing
(NaN fails both comparisons). -/
def assayInRange : Option ℚ → Bool
  | none => false
  | some a => decide (0 ≤ a) && decide (a ≤ 100)

/-- `row["api_assay"] + row["total_degradants"] < 90`; false when the
assay is missing (NaN + x is NaN, and NaN < 90 is false). -/
def massSuspicious (api : Option ℚ) (total : ℚ) : Bool :=
  match api with
  | none => false
  | some a => decide (a + total < 90)

/-- The `row_issues` list built for one row by `validate_and_clean`, in
source order. -/
def rowIssues (r : ProcessedRow) : List String :=
  (if assayInRange r.api_assay then [] else ["API assay out of range"]) ++
  (if decide (r.total_degradants < 0) then ["Negative degradants"] else []) ++
  (if massSuspicious r.api_assay r.total_degradants then ["Suspicious mass loss"] else [])

/-- The `issues` accumulator of `validate_and_clean`: `i` is the dataframe
index of the first row of `rows` (0 at the top-level call, thanks to
`reset_index(drop=True)`); a row contributes an entry only when it has at
least one issue, with all its issue texts joined by `", "`. -/
def collectIssues : Nat → List ProcessedRow → List (Nat × String)
  | _, [] => []
  | i, r :: rs =>
    (if rowIssues r = [] then [] else [(i, String.intercalate ", " (rowIssues r))]) ++
      collectIssues (i + 1) rs

/-- `validate_and_clean`: returns the rows unchanged together with the
advisory issues list. -/
def validate_and_clean (rows : List ProcessedRow) :
    List ProcessedRow × List (Nat × String) :=
  (rows, collectIssues 0 rows)

/-- A raw uploaded table: header names plus rows of cells. -/
structure RawTable where
  cols : List String
  rows : List (List Cell)
deriving DecidableEq

/-- `required = {"api_assay", "stress_type", "time_months"}`. -/
def requiredCols : List String := ["api_assay", "stress_type", "time_months"]

/-- The column names after `normalize_columns`. -/
def normCols (t : RawTable) : List String := normalize_columns t.cols

/-- `missing = required - set(df.columns)` (as a list, in the fixed order
of `requiredCols`; the Python set only matters for its emptiness and its
members, which are preserved). -/
def missingRequired (t : RawTable) : List String :=
  requiredCols.filter (fun c => !(normCols t).contains c)

/-- The detected degradant columns of the normalized table. -/
def degradantColsOf (t : RawTable) : List String :=
  detect_degradant_columns (normCols t)

/-- `numeric_cols = ["api_assay", "time_months"] + degradant_cols`. -/
def numericColsOf (t : RawTable) : List String :=
  ["api_assay", "time_months"] ++ degradantColsOf t

/-- The rows kept by `dropna(how="all").reset_index(drop=True)`. -/
def keptRows (t : RawTable) : List (List Cell) :=
  t.rows.filter (fun row => !rowAllNA (normCols t) (numericColsOf t) row)

/-- Does some numerically-coerced column label occur more than once among
the normalized columns?  When it does, `df[col]` selects a two-column
DataFrame and `pd.to_numeric(df[col], errors="coerce")` raises a
TypeError on a schema that is otherwise fully resolvable. -/
def hasDuplicateNumericCol (t : RawTable) : Bool :=
  (numericColsOf t).any (fun c => 2 ≤ (normCols t).count c)

/-- Is the RMB column `None` on every kept row of a nonempty row set?
The RMB lambda's `None` results make `df.apply` build an object-dtype
column exactly when every result is `None` (a mix of floats and `None`
becomes float64 with NaN), and then `df["RMB"] - 1` raises a TypeError;
with zero kept rows the empty column subtracts without error. -/
def rmbAllNone (t : RawTable) : Bool :=
  !(keptRows t).isEmpty &&
    (keptRows t).all
      (fun row => ((computeRow (normCols t) (degradantColsOf t) row).RMB).isNone)

/-- `preprocess_input`: normalization, schema checks, coercion, dropna,
per-row metrics, validation.  A raised exception is `Except.error` with
its message: the two `ValueError`s of the schema checks (the
missing-columns message lists the missing names), the `TypeError` that
`pd.to_numeric` raises on a duplicate-label numeric column, and the
`TypeError` that `df["RMB"] - 1` raises on an all-`None` object-dtype RMB
column (messages modelled without Python's quoting), in the source's
raise order. -/
def preprocess_input (t : RawTable) :
    Except String (List ProcessedRow × List (Nat × String)) :=
  if missingRequired t ≠ [] then
    .error ("Missing required columns: " ++ String.intercalate ", " (missingRequired t))
  else if degradantColsOf t = [] then
    .error "No degradant columns detected"
  else if hasDuplicateNumericCol t then
    .error "TypeError: arg must be a list, tuple, 1-d array, or Series"
  else if rmbAllNone t then
    .error "TypeError: unsupported operand type(s) for -: NoneType and int"
  else
    .ok (validate_and_clean
      ((keptRows t).map (computeRow (normCols t) (degradantColsOf t))))

/-! ## Claim theorems: zone classifier and action recommendation -/

/-- Claim C2 (confirmed): whenever `|Z_MB| ≤ 2`, the zone classifier
returns Zone 1 ("Analytical variability") regardless of AMB and RMB —
the first rule of the ordered decision list wins even when the guards of
rules 2–4 would also match. -/
theorem C2_zone1_precedence (amb rmb : Option ℚ) (z : ℚ) (h : |z| ≤ 2) :
    diagnostic_zone amb rmb (some z) = "Zone 1 – Analytical variability" := by
  unfold diagnostic_zone
  simp [oAbsLe, h]

/-- Witness for C2: AMB = 92 and RMB = 0.2 satisfy rule 2's guard, yet
Z_MB = 0 makes rule 1 fire first. -/
theorem C2_witness :
    |(0 : ℚ)| ≤ 2 ∧
    diagnostic_zone (some 92) (some (0.2 : ℚ)) (some 0) =
      "Zone 1 – Analytical variability" :=
  ⟨by simp, C2_zone1_precedence (some 92) (some (0.2 : ℚ)) 0 (by simp)⟩

/-- Claim C3 (confirmed): with RMB missing and `|Z_MB| > 2`, every
RMB-based guard of rules 2–4 fails (missing values fail all comparisons,
as NaN does), so the classifier falls through to the default label
"Zone 3 – Method or degradation pathway issue" without crashing. -/
theorem C3_missing_rmb_default_zone (amb : Option ℚ) (z : ℚ) (h : 2 < |z|) :
    diagnostic_zone amb none (some z) =
      "Zone 3 – Method or degradation pathway issue" := by
  unfold diagnostic_zone
  simp [oAbsLe, oLt, oGe, oLe, oGt, not_le.mpr h]

/-- Witness for C3, scenario 4 of the spec: api_assay = 105 and
degradant_A = 3 give AMB = 108, Z_MB = 3.2 and a missing RMB; the
classifier lands on the default Zone 3 label. -/
theorem C3_witness :
    (2 : ℚ) < |(3.2 : ℚ)| ∧
    diagnostic_zone (some 108) none (some (3.2 : ℚ)) =
      "Zone 3 – Method or degradation pathway issue" :=
  ⟨lt_abs.mpr (Or.inl (by norm_num)),
   C3_missing_rmb_default_zone (some 108) (3.2 : ℚ) (lt_abs.mpr (Or.inl (by norm_num)))⟩

/-- Claim C10 (confirmed): for every defined z, the interpretation is a
total three-way split: "Within analytical variability" iff `|z| ≤ 2`,
"Statistically significant mass loss" iff `z < -2`, and "Statistically
significant over-recovery" iff `z > 2`; the three cases are exhaustive,
so exactly one label is produced. -/
theorem C10_interpret_total_split (z : ℚ) :
    (|z| ≤ 2 →
      interpret_z_mb (some z) = ("Within analytical variability", "Acceptable")) ∧
    (z < -2 →
      interpret_z_mb (some z) =
        ("Statistically significant mass loss", "Investigate imbalance")) ∧
    (2 < z →
      interpret_z_mb (some z) =
        ("Statistically significant over-recovery", "Check response factors")) ∧
    (|z| ≤ 2 ∨ z < -2 ∨ 2 < z) := by
  refine ⟨fun h => by simp [interpret_z_mb, h], fun h => ?_, fun h => ?_, ?_⟩
  · have h2 : ¬|z| ≤ 2 := by
      rw [not_le, lt_abs]
      exact Or.inr (by linarith)
    simp [interpret_z_mb, h2, h]
  · have h2 : ¬|z| ≤ 2 := by
      rw [not_le, lt_abs]
      exact Or.inl h
    have h3 : ¬z < -2 := by linarith
    simp [interpret_z_mb, h2, h3]
  · rcases le_or_lt |z| 2 with h | h
    · exact Or.inl h
    · rcases lt_abs.mp h with h | h
      · exact Or.inr (Or.inr h)
      · exact Or.inr (Or.inl (by linarith))

/-- Witness for C10 at z = 0. -/
theorem C10_witness :
    |(0 : ℚ)| ≤ 2 ∧
    interpret_z_mb (some 0) = ("Within analytical variability", "Acceptable") :=
  ⟨by simp, (C10_interpret_total_split 0).1 (by simp)⟩

/-- Claim C6 (confirmed): the recommended action depends only on the zone
number of the label the classifier produces (`actionForZone ∘ zoneNumber`
agrees with `recommended_action ∘ diagnostic_zone` everywhere), the two
distinct Zone 3 labels map to the same action, and the defensive default
"Expert review required" is unreachable on classifier outputs. -/
theorem C6_action_pure_function :
    (∀ amb rmb z_mb : Option ℚ,
      recommended_action (diagnostic_zone amb rmb z_mb) =
        actionForZone (zoneNumber amb rmb z_mb)) ∧
    recommended_action "Zone 3 – Physical loss mechanisms" =
      recommended_action "Zone 3 – Method or degradation pathway issue" ∧
    (∀ amb rmb z_mb : Option ℚ,
      recommended_action (diagnostic_zone amb rmb z_mb) ≠ "Expert review required") := by
  refine ⟨?_, by decide, ?_⟩
  · intro amb rmb z
    unfold diagnostic_zone zoneNumber
    split_ifs <;> decide
  · intro amb rmb z
    unfold diagnostic_zone
    split_ifs <;> decide

/-- Witness for C6 at a rule-2 input. -/
theorem C6_witness :
    recommended_action (diagnostic_zone (some 92) (some (0.2 : ℚ)) (some (-(3.2 : ℚ)))) =
      actionForZone (zoneNumber (some 92) (some (0.2 : ℚ)) (some (-(3.2 : ℚ)))) :=
  C6_action_pure_function.1 (some 92) (some (0.2 : ℚ)) (some (-(3.2 : ℚ)))

/-! ## Claim theorems: column normalization and degradant detection -/

/-- Counterexample to claim C1 as stated: the raw column "Total
Degradants" contains the substring "degradant" after trimming and
lowercasing, and is indeed renamed to its space-to-underscore form
"total_degradants", but it does NOT appear in the detected
degradant-column set, because detection requires the prefix
"degradant_". -/
theorem C1_counterexample :
    strContains (cleanName "Total Degradants") "degradant" = true ∧
    normalize_columns ["Total Degradants"] = ["total_degradants"] ∧
    detect_degradant_columns (normalize_columns ["Total Degradants"]) = [] := by
  decide

/-- Claim C1 (corrected): every column whose trimmed, lowercased name
contains "degradant" is renamed to its trimmed, lowercased,
space-to-underscore form regardless of alias table membership and of
where the substring occurs; but it is treated as a degradant column
(member of the detected set) precisely when that normalized form starts
with "degradant_". -/
theorem C1_degradant_normalization (col : String)
    (h : strContains (cleanName col) "degradant" = true) :
    normalizeColumn col = spaceToUnderscore (cleanName col) ∧
    (detect_degradant_columns (normalize_columns [col]) =
        [spaceToUnderscore (cleanName col)] ↔
      strStartsWith (spaceToUnderscore (cleanName col)) "degradant_" = true) ∧
    (detect_degradant_columns (normalize_columns [col]) = [] ↔
      strStartsWith (spaceToUnderscore (cleanName col)) "degradant_" = false) := by
  have hn : normalizeColumn col = spaceToUnderscore (cleanName col) := by
    unfold normalizeColumn
    simp [h]
  refine ⟨hn, ?_, ?_⟩ <;>
    · unfold detect_degradant_columns normalize_columns
      rw [List.map_singleton, hn]
      cases hsw : strStartsWith (spaceToUnderscore (cleanName col)) "degradant_" <;>
        simp [List.filter, hsw]

/-- Witness for C1 on the column "Degradant A": renamed to "degradant_a",
which does start with "degradant_" and so is detected. -/
theorem C1_witness :
    normalizeColumn "Degradant A" = spaceToUnderscore (cleanName "Degradant A") ∧
    (detect_degradant_columns (normalize_columns ["Degradant A"]) =
        [spaceToUnderscore (cleanName "Degradant A")] ↔
      strStartsWith (spaceToUnderscore (cleanName "Degradant A")) "degradant_" = true) ∧
    (detect_degradant_columns (normalize_columns ["Degradant A"]) = [] ↔
      strStartsWith (spaceToUnderscore (cleanName "Degradant A")) "degradant_" = false) :=
  C1_degradant_normalization "Degradant A" (by decide)

/-! ## Claim theorems: pipeline metrics -/

/-- On a successful run, the output rows are exactly the kept raw rows
pushed through the per-row calculation block. -/
theorem preprocess_ok_rows (t : RawTable)
    (out : List ProcessedRow × List (Nat × String))
    (h : preprocess_input t = .ok out) :
    out.1 = (keptRows t).map (computeRow (normCols t) (degradantColsOf t)) := by
  unfold preprocess_input at h
  split_ifs at h
  cases h
  rfl

/-- With a defined assay below 100, the per-row RMB is the quotient. -/
theorem computeRow_rmb_lt (cols dcols : List String) (row : List Cell) (a : ℚ)
    (h : (computeRow cols dcols row).api_assay = some a) (ha : a < 100) :
    (computeRow cols dcols row).RMB =
      some ((computeRow cols dcols row).total_degradants / (100 - a)) := by
  simp only [computeRow] at h ⊢
  simp [h, sub_pos.mpr ha]

/-- With a defined assay of 100 or more, the per-row RMB is missing. -/
theorem computeRow_rmb_ge (cols dcols : List String) (row : List Cell) (a : ℚ)
    (h : (computeRow cols dcols row).api_assay = some a) (ha : 100 ≤ a) :
    (computeRow cols dcols row).RMB = none := by
  simp only [computeRow] at h ⊢
  simp [h, not_lt.mpr (by linarith : (100 : ℚ) - a ≤ 0)]

/-- Claim C4 (confirmed): RMB is `total_degradants / (100 - api_assay)`
exactly when `api_assay < 100` and missing when `api_assay ≥ 100`, both
for the standalone `calculate_rmb` and for the RMB column the pipeline
computes per row (the pipeline rows being images of `computeRow`). -/
theorem C4_rmb_definition :
    (∀ api_assay total_degradants : ℚ,
      (api_assay < 100 →
        calculate_rmb api_assay total_degradants =
          some (total_degradants / (100 - api_assay))) ∧
      (100 ≤ api_assay → calculate_rmb api_assay total_degradants = none)) ∧
    (∀ (cols dcols : List String) (row : List Cell) (a : ℚ),
      (computeRow cols dcols row).api_assay = some a →
      ((a < 100 →
        (computeRow cols dcols row).RMB =
          some ((computeRow cols dcols row).total_degradants / (100 - a))) ∧
       (100 ≤ a → (computeRow cols dcols row).RMB = none))) ∧
    (∀ (t : RawTable) (out : List ProcessedRow × List (Nat × String)),
      preprocess_input t = .ok out →
      out.1 = (keptRows t).map (computeRow (normCols t) (degradantColsOf t))) := by
  refine ⟨?_, ?_, fun t out h => preprocess_ok_rows t out h⟩
  · intro api total
    constructor
    · intro h
      unfold calculate_rmb
      rw [if_neg (by simp; linarith)]
    · intro h
      unfold calculate_rmb
      rw [if_pos (by simp; linarith)]
  · intro cols dcols row a h
    exact ⟨computeRow_rmb_lt cols dcols row a h, computeRow_rmb_ge cols dcols row a h⟩

/-- A well-formed concrete table used by the witnesses: columns resolve
to api_assay, stress_type, time_months, degradant_a. -/
def tEx : RawTable :=
  { cols := ["API Assay", "Stress Type", "Time", "Degradant A"],
    rows := [[Cell.num 95, Cell.text "acid", Cell.num 3, Cell.num 4]] }

/-- The single raw row of `tEx`. -/
def rowEx : List Cell := [Cell.num 95, Cell.text "acid", Cell.num 3, Cell.num 4]

/-- The processed row the pipeline computes for `tEx`. -/
def rEx : ProcessedRow := computeRow (normCols tEx) (degradantColsOf tEx) rowEx

/-- The `tEx` row has a defined RMB (assay 95 is below 100). -/
theorem computeRow_tEx_rmb :
    (computeRow (normCols tEx) (degradantColsOf tEx) rowEx).RMB =
      some ((computeRow (normCols tEx) (degradantColsOf tEx) rowEx).total_degradants /
        (100 - 95)) :=
  computeRow_rmb_lt (normCols tEx) (degradantColsOf tEx) rowEx 95 (by decide) (by norm_num)

/-- The RMB column of `tEx` is not entirely missing. -/
theorem rmbAllNone_tEx : rmbAllNone tEx = false := by
  unfold rmbAllNone
  rw [show keptRows tEx = [rowEx] from by decide]
  simp [computeRow_tEx_rmb]

/-- The pipeline succeeds on `tEx` with the mapped row. -/
theorem preprocess_tEx_ok :
    preprocess_input tEx =
      .ok (validate_and_clean
        ((keptRows tEx).map (computeRow (normCols tEx) (degradantColsOf tEx)))) := by
  unfold preprocess_input
  rw [if_neg (by decide), if_neg (by decide), if_neg (by decide),
    if_neg (by simp [rmbAllNone_tEx])]

/-- Witness for C4: on the `tEx` row, api_assay = 95 < 100 and RMB is the
quotient; `calculate_rmb` at api_assay = 105 is missing. -/
theorem C4_witness :
    rEx.RMB = some (rEx.total_degradants / (100 - 95)) ∧
    calculate_rmb 105 3 = none :=
  ⟨(C4_rmb_definition.2.1 (normCols tEx) (degradantColsOf tEx) rowEx 95
      (by decide)).1 (by norm_num),
   (C4_rmb_definition.1 105 3).2 (by norm_num)⟩

/-- Counterexample to claim C5 as stated: the standalone `calculate_rmbd`
takes an absolute value, so at RMB = 0.5 it returns 0.5, not the signed
RMB − 1 = −0.5 the claim asserts. -/
theorem C5_counterexample :
    calculate_rmbd (some (0.5 : ℚ)) ≠ some ((0.5 : ℚ) - 1) := by
  show some |(0.5 : ℚ) - 1| ≠ some ((0.5 : ℚ) - 1)
  rw [abs_of_nonpos (by norm_num)]
  norm_num

/-- Claim C5 (corrected): the pipeline's RMBD column is the signed
`RMB − 1`, missing exactly when RMB is missing; the standalone
`calculate_rmbd`, however, returns the absolute value `|RMB − 1|`
(missing exactly when RMB is missing). -/
theorem C5_rmbd_amended :
    (∀ (cols dcols : List String) (row : List Cell),
      (computeRow cols dcols row).RMBD =
        (computeRow cols dcols row).RMB.map (fun v => v - 1)) ∧
    (∀ (t : RawTable) (out : List ProcessedRow × List (Nat × String)),
      preprocess_input t = .ok out →
      ∀ r ∈ out.1, r.RMBD = r.RMB.map (fun v => v - 1)) ∧
    (∀ v : ℚ, calculate_rmbd (some v) = some |v - 1|) ∧
    calculate_rmbd none = none := by
  refine ⟨fun cols dcols row => rfl, ?_, fun v => rfl, rfl⟩
  intro t out h r hr
  rw [preprocess_ok_rows t out h] at hr
  rcases List.mem_map.mp hr with ⟨raw, _, rfl⟩
  rfl

/-- Witness for C5: the pipeline row of `tEx` has signed RMBD, and
`calculate_rmbd` at 0.5 is the absolute value. -/
theorem C5_witness :
    rEx.RMBD = rEx.RMB.map (fun v => v - 1) ∧
    calculate_rmbd (some (0.5 : ℚ)) = some |(0.5 : ℚ) - 1| :=
  ⟨C5_rmbd_amended.2.1 tEx
      (validate_and_clean
        ((keptRows tEx).map (computeRow (normCols tEx) (degradantColsOf tEx))))
      preprocess_tEx_ok rEx (List.mem_map_of_mem _ (by decide)),
   C5_rmbd_amended.2.2.1 (0.5 : ℚ)⟩

/-! ## Claim theorems: schema errors, coercion, validation -/

/-- Claim C8 (confirmed): a row whose degradant cells are all
non-parseable (coerced to missing) still gets the defined value
`total_degradants = 0` — missing cells contribute 0 to the per-row sum —
and such a row still appears in the pipeline output rather than failing
the pipeline. -/
theorem C8_unparseable_degradants_zero :
    (∀ (cols dcols : List String) (row : List Cell),
      (∀ c ∈ dcols, numValue cols row c = none) →
      (computeRow cols dcols row).total_degradants = 0) ∧
    (∀ (t : RawTable) (out : List ProcessedRow × List (Nat × String)),
      preprocess_input t = .ok out →
      ∀ raw ∈ keptRows t,
        computeRow (normCols t) (degradantColsOf t) raw ∈ out.1) := by
  constructor
  · intro cols dcols row h
    simp only [computeRow, sumDegradants]
    refine List.sum_eq_zero ?_
    intro x hx
    rcases List.mem_map.mp hx with ⟨c, hc, rfl⟩
    rw [h c hc]
    rfl
  · intro t out h raw hraw
    rw [preprocess_ok_rows t out h]
    exact List.mem_map_of_mem _ hraw

/-- A row of `tEx`-shaped data whose degradant cell is non-numeric text. -/
def rowTxt : List Cell := [Cell.num 95, Cell.text "acid", Cell.num 3, Cell.text "n/a"]

/-- Witness for C8: with the only degradant cell being the text "n/a",
the per-row total is the defined 0. -/
theorem C8_witness :
    (∀ c ∈ ["degradant_a"], numValue (normCols tEx) rowTxt c = none) ∧
    (computeRow (normCols tEx) ["degradant_a"] rowTxt).total_degradants = 0 :=
  ⟨by decide,
   C8_unparseable_degradants_zero.1 (normCols tEx) ["degradant_a"] rowTxt (by decide)⟩

/-- Membership in the issues accumulator, for an arbitrary starting
index: an entry `(i, s)` is present exactly for a row at offset
`i - k` with at least one issue, with `s` its joined issue text. -/
theorem collectIssues_mem (rows : List ProcessedRow) :
    ∀ (k i : Nat) (s : String),
      ((i, s) ∈ collectIssues k rows ↔
        ∃ j r, i = k + j ∧ rows.get? j = some r ∧ rowIssues r ≠ [] ∧
          s = String.intercalate ", " (rowIssues r)) := by
  induction rows with
  | nil =>
    intro k i s
    simp [collectIssues]
  | cons r rs ih =>
    intro k i s
    simp only [collectIssues, List.mem_append]
    constructor
    · intro h
      rcases h with h | h
      · by_cases hr : rowIssues r = []
        · simp [hr] at h
        · simp only [if_neg hr, List.mem_singleton, Prod.mk.injEq] at h
          exact ⟨0, r, by omega, rfl, hr, h.2⟩
      · rcases (ih (k + 1) i s).mp h with ⟨j, r', hj, hget, hne, hs⟩
        exact ⟨j + 1, r', by omega, by simpa using hget, hne, hs⟩
    · rintro ⟨j, r', hj, hget, hne, hs⟩
      cases j with
      | zero =>
        left
        simp only [List.get?_cons_zero, Option.some_inj] at hget
        subst hget
        simp only [if_neg hne, List.mem_singleton, Prod.mk.injEq]
        exact ⟨by omega, hs⟩
      | succ j' =>
        right
        exact (ih (k + 1) i s).mpr ⟨j', r', by omega, by simpa using hget, hne, hs⟩

/-- Claim C9 (confirmed): `validate_and_clean` returns the input rows
unchanged, and its issues list holds an entry `(i, s)` exactly when row
`i` fails at least one of the three checks, `s` being all of that row's
issue texts joined by `", "` (so one row can accumulate several). -/
theorem C9_validate_frame (rows : List ProcessedRow) :
    (validate_and_clean rows).1 = rows ∧
    ∀ (i : Nat) (s : String),
      ((i, s) ∈ (validate_and_clean rows).2 ↔
        ∃ r, rows.get? i = some r ∧ rowIssues r ≠ [] ∧
          s = String.intercalate ", " (rowIssues r)) := by
  refine ⟨rfl, fun i s => ?_⟩
  rw [show (validate_and_clean rows).2 = collectIssues 0 rows from rfl,
    collectIssues_mem rows 0 i s]
  constructor
  · rintro ⟨j, r, hj, hget, hne, hs⟩
    exact ⟨r, by rw [show i = j by omega]; exact hget, hne, hs⟩
  · rintro ⟨r, hget, hne, hs⟩
    exact ⟨i, r, by omega, hget, hne, hs⟩

/-- A row failing two checks at once: missing api_assay (out of range)
and negative total_degradants. -/
def rBad : ProcessedRow :=
  { cells := [Cell.text "bad"], api_assay := none, total_degradants := -1,
    AMB := none, AMBD := none, RMB := none, RMBD := none, Z_MB := none }

/-- Witness for C9 on the one-row set `[rBad]`: rows come back unchanged
and the issue entry at index 0 carries both joined issue texts. -/
theorem C9_witness :
    (validate_and_clean [rBad]).1 = [rBad] ∧
    ((0, "API assay out of range, Negative degradants") ∈ (validate_and_clean [rBad]).2 ↔
      ∃ r, [rBad].get? 0 = some r ∧ rowIssues r ≠ [] ∧
        "API assay out of range, Negative degradants" =
          String.intercalate ", " (rowIssues r)) :=
  ⟨(C9_validate_frame [rBad]).1,
   (C9_validate_frame [rBad]).2 0 "API assay out of range, Negative degradants"⟩

example : rowIssues rBad = ["API assay out of range", "Negative degradants"] := by decide

example : (0, "API assay out of range, Negative degradants") ∈ (validate_and_clean [rBad]).2 := by
  decide
